import Mathlib

/-
  Verification of the PowerPack R2M1 controller core
  (src/BO_POWERPACK_R2M1/PC_APP/powerpack_controller.py).

  Shallow embedding: pure protocol functions become Lean functions over
  `List Nat` byte sequences (each byte 0–255); the controller's mutable
  fields become an explicit `Controller` record threaded through the
  operations; wall-clock time is an explicit rational parameter `now`;
  exceptions become `Except Err` results paired with the post-state, so
  side effects that happen before an exception are still visible.
-/

namespace PowerPack

/-! Command opcodes, matching the Python constants. -/

def CMD_SET_RELAY1 : Nat := 0x01

def CMD_SET_RELAY2 : Nat := 0x02

def CMD_SET_DIMMER1 : Nat := 0x03

def CMD_SET_DIMMER2 : Nat := 0x04

def CMD_GET_STATUS : Nat := 0x05

def CMD_ENABLE_DIMMER1 : Nat := 0x06

def CMD_ENABLE_DIMMER2 : Nat := 0x07

def CMD_DISABLE_DIMMER1 : Nat := 0x08

def CMD_DISABLE_DIMMER2 : Nat := 0x09

def CMD_GET_VERSION : Nat := 0x0A

/-- Decoded status reply, mirroring the dict built by
`parse_status_response`. -/
structure StatusResponse where
  relay1 : Bool
  relay2 : Bool
  dimmer1_value : Nat
  dimmer2_value : Nat
  dimmer1_enabled : Bool
  dimmer2_enabled : Bool
deriving DecidableEq, Repr

/-- Decoded response (the dicts returned by `parse_response`): a status
reply or a version reply carrying the formatted version string. -/
inductive Response where
  | status (s : StatusResponse)
  | version (v : String)
deriving DecidableEq, Repr

/-- Error taxonomy for the embedded operations: `notConnected` models the
"USB not connected" / "No USB connection available" exceptions,
`writeFailed` a serial write that raises, `invalidArgument` the
`ValueError` raised by `set_dimmer` on an out-of-range percentage. -/
inductive Err where
  | notConnected
  | writeFailed
  | invalidArgument
deriving DecidableEq, Repr

/-- Device-state fields of `PowerPackController` (`relay1_state` ...
`firmware_version`), with the constructor-time defaults. -/
structure DeviceState where
  relay1_state : Bool := false
  relay2_state : Bool := false
  dimmer1_value : Nat := 0
  dimmer2_value : Nat := 0
  dimmer1_enabled : Bool := false
  dimmer2_enabled : Bool := false
  firmware_version : String := "Unknown"
deriving DecidableEq, Repr

/-- The serial handle: whether the port reports open, the queued inbound
bytes (pyserial's input buffer), and the log of frames written so far
(newest last), which stands for the bytes pushed out on the wire. -/
structure SerialConn where
  is_open : Bool
  in_buffer : List Nat
  out_log : List (List Nat)
deriving DecidableEq, Repr

/-- The controller state threaded through the operations:
`serial_conn` (None ↦ `none`), `last_communication` (a rational
timestamp in seconds), and the device-state fields. -/
structure Controller where
  serial_conn : Option SerialConn
  last_communication : ℚ
  device : DeviceState
deriving DecidableEq, Repr

/-- Liveness threshold: `self.communication_timeout = 5.0` seconds. -/
def communication_timeout : ℚ := 5

/-- Frame layout produced by `struct.pack` with format `<BBHBBBB`:
one byte `cmd`, one byte `param`, the two-byte `value` in LITTLE-endian
order (low byte first), then four zero padding bytes.  `struct.pack`
rejects out-of-range arguments, so the `% 256` / `% 65536` reductions
are inert for every value the program can pass. -/
def send_frame (cmd param value : Nat) : List Nat :=
  [cmd % 256, param % 256, value % 65536 % 256, value % 65536 / 256, 0, 0, 0, 0]

/-- Byte `i` of a frame (`data[i]` in Python, always guarded by a length
check of 8 there). -/
def byteAt (data : List Nat) (i : Nat) : Nat := data.getD i 0

/-- Pure decode step of `parse_status_response`: length and opcode checks,
then `relay1 = bool(data[1])`, `relay2 = bool(data[2])`,
`dimmer1 = (data[3] << 8) | data[4]`, `dimmer2 = (data[5] << 8) | data[6]`,
`dimmer1_enabled = bool(data[7] & 0x02)`,
`dimmer2_enabled = bool(data[7] & 0x01)`. -/
def parse_status_response (data : List Nat) : Option Response :=
  if data.length < 8 then none
  else if byteAt data 0 ≠ CMD_GET_STATUS then none
  else some (.status
    { relay1 := byteAt data 1 ≠ 0
      relay2 := byteAt data 2 ≠ 0
      dimmer1_value := (byteAt data 3) <<< 8 ||| byteAt data 4
      dimmer2_value := (byteAt data 5) <<< 8 ||| byteAt data 6
      dimmer1_enabled := (byteAt data 7) &&& 0x02 ≠ 0
      dimmer2_enabled := (byteAt data 7) &&& 0x01 ≠ 0 })

/-- Pure decode step of `parse_version_response`: the version string is
formatted as "v" ++ major ++ "." ++ minor ++ "." ++ patch from bytes
1, 2, 3. -/
def parse_version_response (data : List Nat) : Option Response :=
  if data.length < 8 then none
  else if byteAt data 0 ≠ CMD_GET_VERSION then none
  else some (.version
    ("v" ++ toString (byteAt data 1) ++ "." ++ toString (byteAt data 2)
      ++ "." ++ toString (byteAt data 3)))

/-- Decode dispatch of `parse_response`: inputs shorter than 8 bytes are
rejected; otherwise dispatch on byte 0; unknown opcodes are logged and
dropped (`none`). -/
def parse_response (data : List Nat) : Option Response :=
  if data.length < 8 then none
  else if byteAt data 0 = CMD_GET_STATUS then parse_status_response data
  else if byteAt data 0 = CMD_GET_VERSION then parse_version_response data
  else none

/-- State update performed inside `parse_status_response` (fields copied
into `self.*`) and `parse_version_response` (`self.firmware_version`). -/
def apply_response (d : DeviceState) (r : Response) : DeviceState :=
  match r with
  | .status s =>
      { d with
        relay1_state := s.relay1
        relay2_state := s.relay2
        dimmer1_value := s.dimmer1_value
        dimmer2_value := s.dimmer2_value
        dimmer1_enabled := s.dimmer1_enabled
        dimmer2_enabled := s.dimmer2_enabled }
  | .version v => { d with firmware_version := v }

/-- Embedding of `is_connected`: false when there is no serial handle or
the port does not report open (including the case where probing the
port raises), otherwise true exactly when the elapsed time since
`last_communication` is strictly below the 5-second timeout.  It is a
pure function of the stored state and the current time. -/
def is_connected (c : Controller) (now : ℚ) : Bool :=
  match c.serial_conn with
  | none => false
  | some conn =>
      if conn.is_open = false then false
      else decide (now - c.last_communication < communication_timeout)

/-- Embedding of `send_usb_command`.  `writeOk` tells whether the
underlying `serial.write`/`flush` succeeds; it is an input of the model
because the Python call can raise.  Steps, in source order: raise if no
handle or not open; build the frame; `reset_input_buffer()` (drops every
queued inbound byte); write the frame (on failure the exception
propagates with the buffer already cleared and `last_communication` NOT
updated); on success record `last_communication = now`.  Returns the
post-state together with the written frame or the error. -/
def send_usb_command (c : Controller) (now : ℚ) (writeOk : Bool)
    (cmd param value : Nat) : Controller × Except Err (List Nat) :=
  match c.serial_conn with
  | none => (c, .error .notConnected)
  | some conn =>
      if conn.is_open = false then (c, .error .notConnected)
      else
        let data := send_frame cmd param value
        let c1 : Controller :=
          { c with serial_conn := some { conn with in_buffer := [] } }
        if writeOk = false then (c1, .error .writeFailed)
        else
          let conn2 : SerialConn :=
            { conn with in_buffer := [], out_log := conn.out_log ++ [data] }
          ({ c with serial_conn := some conn2, last_communication := now },
            .ok data)

/-- Embedding of `send_command`: raises when `serial_conn` is None,
otherwise delegates to `send_usb_command` (both branches reduce to the
same checks). -/
def send_command (c : Controller) (now : ℚ) (writeOk : Bool)
    (cmd param value : Nat) : Controller × Except Err (List Nat) :=
  match c.serial_conn with
  | none => (c, .error .notConnected)
  | some _ => send_usb_command c now writeOk cmd param value

/-- Embedding of `set_relay`: choose the opcode by relay number, send the
command with param 1/0, and only after a successful send flip the stored
relay boolean. -/
def set_relay (c : Controller) (now : ℚ) (writeOk : Bool)
    (relay_num : Nat) (state : Bool) : Controller × Except Err Unit :=
  let cmd := if relay_num = 1 then CMD_SET_RELAY1 else CMD_SET_RELAY2
  let r := send_command c now writeOk cmd (if state then 1 else 0) 0
  match r.2 with
  | .error e => (r.1, .error e)
  | .ok _ =>
      if relay_num = 1 then
        ({ r.1 with device := { r.1.device with relay1_state := state } },
          .ok ())
      else
        ({ r.1 with device := { r.1.device with relay2_state := state } },
          .ok ())

/-- Percentage → DAC conversion of `set_dimmer`:
`int((percentage / 100.0) * 4095)` — truncation toward zero, which on
the validated range [0,100] is the floor.  For every integer percentage
0–100 the double-precision evaluation of the Python expression agrees
with this exact rational floor (the product is never within 2⁻⁴⁰ of a
larger integer), so the embedding is exact on integers. -/
def dac_value (percentage : ℚ) : ℤ :=
  Int.floor (percentage / 100 * 4095)

/-- Embedding of `set_dimmer`: validate `0 <= percentage <= 100` (raising
`ValueError` otherwise, before any I/O or state change), convert to the
DAC value, send it as the frame's 2-byte value field, and only after a
successful send store it in `dimmer1_value`/`dimmer2_value`. -/
def set_dimmer (c : Controller) (now : ℚ) (writeOk : Bool)
    (dimmer_num : Nat) (percentage : ℚ) : Controller × Except Err Unit :=
  if 0 ≤ percentage ∧ percentage ≤ 100 then
    let dv := (dac_value percentage).toNat
    let cmd := if dimmer_num = 1 then CMD_SET_DIMMER1 else CMD_SET_DIMMER2
    let r := send_command c now writeOk cmd 0 dv
    match r.2 with
    | .error e => (r.1, .error e)
    | .ok _ =>
        if dimmer_num = 1 then
          ({ r.1 with device := { r.1.device with dimmer1_value := dv } },
            .ok ())
        else
          ({ r.1 with device := { r.1.device with dimmer2_value := dv } },
            .ok ())
  else (c, .error .invalidArgument)

/-- Embedding of `enable_dimmer`: the enabled flag is assigned in the
same branch that selects the opcode, BEFORE `send_command` runs, so the
flag changes even when the send fails; the send error still propagates. -/
def enable_dimmer (c : Controller) (now : ℚ) (writeOk : Bool)
    (dimmer_num : Nat) (enable : Bool) : Controller × Except Err Unit :=
  let cmd :=
    if dimmer_num = 1 then
      if enable then CMD_ENABLE_DIMMER1 else CMD_DISABLE_DIMMER1
    else
      if enable then CMD_ENABLE_DIMMER2 else CMD_DISABLE_DIMMER2
  let c0 :=
    if dimmer_num = 1 then
      { c with device := { c.device with dimmer1_enabled := enable } }
    else
      { c with device := { c.device with dimmer2_enabled := enable } }
  let r := send_command c0 now writeOk cmd 0 0
  match r.2 with
  | .error e => (r.1, .error e)
  | .ok _ => (r.1, .ok ())

/-- Embedding of `read_usb_response`: nothing happens without an open
handle or with an empty input buffer; otherwise `read(8)` takes up to 8
queued bytes.  Exactly 8 bytes refresh `last_communication = now` and
are decoded (a decoded status/version also updates the device fields);
1–7 bytes are logged as incomplete and dropped — consumed from the
buffer, never stored for reassembly, and `last_communication` is NOT
refreshed. -/
def read_usb_response (c : Controller) (now : ℚ) :
    Controller × Option Response :=
  match c.serial_conn with
  | none => (c, none)
  | some conn =>
      if conn.is_open = false then (c, none)
      else if conn.in_buffer.length = 0 then (c, none)
      else
        let data := conn.in_buffer.take 8
        let conn1 : SerialConn := { conn with in_buffer := conn.in_buffer.drop 8 }
        if data.length = 8 then
          let r := parse_response data
          let d1 := match r with
            | some resp => apply_response c.device resp
            | none => c.device
          let c1 : Controller :=
            { c with
              serial_conn := some conn1
              last_communication := now
              device := d1 }
          (c1, r)
        else
          ({ c with serial_conn := some conn1 }, none)

/-- A concrete controller with an open handle, used to instantiate the
universally quantified theorems below. -/
def testController : Controller :=
  { serial_conn := some { is_open := true, in_buffer := [1, 2, 3], out_log := [] }
    last_communication := 0
    device := {} }

/-! Helper lemmas shared by the claim theorems. -/

/-- Big-endian byte combination: for a low byte below 256 the shift-and-or
of the decode path is ordinary base-256 positional value. -/
theorem byte_combine (hi lo : Nat) (h : lo < 256) :
    hi <<< 8 ||| lo = 256 * hi + lo := by
  have h8 : lo < 2 ^ 8 := lt_of_lt_of_le h (by norm_num)
  have := (Nat.mul_add_lt_is_or h8 hi).symm
  rw [Nat.shiftLeft_eq, Nat.mul_comm]
  simpa using this

/-- The DAC conversion is bounded by 4095 on the validated range. -/
theorem dac_value_le (p : ℚ) (h1 : p ≤ 100) : dac_value p ≤ 4095 := by
  have harg : p / 100 * 4095 ≤ (4095 : ℚ) := by nlinarith
  calc dac_value p ≤ Int.floor (4095 : ℚ) := Int.floor_le_floor harg
    _ = 4095 := by norm_num

/-- The DAC conversion is nonnegative on the validated range. -/
theorem dac_value_nonneg (p : ℚ) (h0 : 0 ≤ p) : 0 ≤ dac_value p := by
  have harg : (0 : ℚ) ≤ p / 100 * 4095 := by positivity
  exact Int.floor_nonneg.mpr harg

/-- C4: every 8-byte frame with byte 0 = GetStatus (0x05) decodes to
relay1 = bit(byte1), relay2 = bit(byte2), dimmer1 = u16(byte3,byte4),
dimmer2 = u16(byte5,byte6), dimmer1_enabled = bit(byte7 & 0x02),
dimmer2_enabled = bit(byte7 & 0x01); every 8-byte frame with byte 0 =
GetVersion (0x0A) decodes to the string "v{byte1}.{byte2}.{byte3}". -/
theorem claim4_decode_fields (b1 b2 b3 b4 b5 b6 b7 : Nat)
    (h4 : b4 < 256) (h6 : b6 < 256) :
    parse_response [CMD_GET_STATUS, b1, b2, b3, b4, b5, b6, b7] =
      some (.status
        { relay1 := b1 ≠ 0
          relay2 := b2 ≠ 0
          dimmer1_value := 256 * b3 + b4
          dimmer2_value := 256 * b5 + b6
          dimmer1_enabled := b7 &&& 0x02 ≠ 0
          dimmer2_enabled := b7 &&& 0x01 ≠ 0 })
    ∧ ∀ m1 m2 m3 x4 x5 x6 x7 : Nat,
        parse_response [CMD_GET_VERSION, m1, m2, m3, x4, x5, x6, x7] =
          some (.version
            ("v" ++ toString m1 ++ "." ++ toString m2 ++ "." ++ toString m3)) := by
  constructor
  · simp [parse_response, parse_status_response, byteAt, CMD_GET_STATUS,
      CMD_GET_VERSION, byte_combine b3 b4 h4, byte_combine b5 b6 h6]
  · intro m1 m2 m3 x4 x5 x6 x7
    simp [parse_response, parse_version_response, byteAt, CMD_GET_STATUS,
      CMD_GET_VERSION]

/-- C4 witness: the two concrete frames from the claim. The status frame
0x05,1,0,0x01,0x00,0,0,0x03 decodes to relay1 = true, relay2 = false,
dimmer1 = 256, dimmer2 = 0, both dimmers enabled; the version frame
0x0A,2,0,0,0,0,0,0 decodes to "v2.0.0". -/
theorem claim4_decode_fields_witness :
    parse_response [0x05, 1, 0, 0x01, 0x00, 0, 0, 0x03] =
      some (.status
        { relay1 := true
          relay2 := false
          dimmer1_value := 256
          dimmer2_value := 0
          dimmer1_enabled := true
          dimmer2_enabled := true })
    ∧ parse_response [0x0A, 2, 0, 0, 0, 0, 0, 0] = some (.version "v2.0.0") := by
  have h := claim4_decode_fields 1 0 0x01 0x00 0 0 0x03 (by decide) (by decide)
  refine ⟨?_, ?_⟩
  · simpa using h.1
  · simpa using h.2 2 0 0 0 0 0 0

/-- C5: every input shorter than 8 bytes is rejected by every decode
entry point with no partial data, and a short transport read is
consumed and dropped, never buffered for reassembly: the remaining
input buffer is empty, no response is produced and the device state is
untouched. -/
theorem claim5_short_frame (data : List Nat) (h : data.length < 8) :
    parse_response data = none
    ∧ parse_status_response data = none
    ∧ parse_version_response data = none
    ∧ ∀ (c : Controller) (now : ℚ) (conn : SerialConn),
        c.serial_conn = some conn → conn.is_open = true →
        conn.in_buffer = data → 0 < data.length →
        (read_usb_response c now).2 = none
        ∧ (∃ conn', (read_usb_response c now).1.serial_conn = some conn'
            ∧ conn'.in_buffer = [])
        ∧ (read_usb_response c now).1.device = c.device := by
  refine ⟨?_, ?_, ?_, ?_⟩
  · simp [parse_response, h]
  · simp [parse_status_response, h]
  · simp [parse_version_response, h]
  · intro c now conn hconn hopen hbuf hpos
    have hlen : ¬ (8 ≤ data.length) := by omega
    have hdrop : data.drop 8 = [] := List.drop_eq_nil_of_le (by omega)
    simp [read_usb_response, hconn, hopen, hbuf, hlen, hdrop,
      Nat.pos_iff_ne_zero.mp hpos]

/-- C5 witness: a 3-byte fragment is rejected by the codec and dropped by
the read path on a concrete controller. -/
theorem claim5_short_frame_witness :
    parse_response [0x05, 1, 2] = none
    ∧ (read_usb_response
        { serial_conn := some { is_open := true, in_buffer := [0x05, 1, 2], out_log := [] }
          last_communication := 0
          device := {} } 3).2 = none := by
  have h := claim5_short_frame [0x05, 1, 2] (by decide)
  refine ⟨h.1, ?_⟩
  have h2 := h.2.2.2
    { serial_conn := some { is_open := true, in_buffer := [0x05, 1, 2], out_log := [] }
      last_communication := 0
      device := {} } 3
    { is_open := true, in_buffer := [0x05, 1, 2], out_log := [] }
    rfl rfl rfl (by decide)
  exact h2.1

/-- C6: is_connected returns true exactly when a serial handle exists,
the handle reports open, and the elapsed time since last_communication
is strictly below the 5.0-second threshold; it is recomputed from the
stored state on every call (it is a pure function of the state and the
current time). -/
theorem claim6_is_connected_iff (c : Controller) (now : ℚ) :
    is_connected c now = true ↔
      ∃ conn : SerialConn, c.serial_conn = some conn ∧ conn.is_open = true
        ∧ now - c.last_communication < communication_timeout := by
  cases hc : c.serial_conn with
  | none => simp [is_connected, hc]
  | some conn =>
      cases hopen : conn.is_open with
      | false => simp [is_connected, hc, hopen]
      | true => simp [is_connected, hc, hopen]

/-- C1 counterexample: the frame produced by encoding
(GetStatus, param 1, value 1) decodes with both u16 dimmer fields equal
to 0, so the encoded 2-byte value 1 is not recovered by the decode path:
the encode path packs the value little-endian at bytes 2–3 while the
status decode reads big-endian from bytes 3–4. -/
theorem claim1_counterexample :
    parse_response (send_frame CMD_GET_STATUS 1 1) =
      some (.status
        { relay1 := true
          relay2 := true
          dimmer1_value := 0
          dimmer2_value := 0
          dimmer1_enabled := false
          dimmer2_enabled := false })
    ∧ (0 : Nat) ≠ 1 := by
  exact ⟨rfl, by decide⟩

/-- C1 amended: decoding the frame produced by encoding (op, p, v) always
recovers op in byte 0, and a GetStatus/GetVersion opcode is dispatched to
the matching decoder; the single-byte fields round-trip (relay1 recovers
bit(p), relay2 recovers bit(v mod 256), the version major recovers p);
but the 2-byte value field does NOT round-trip into the u16 dimmer
fields: the decoded dimmer1 is 256·(v / 256) — equal to v exactly when
v is a multiple of 256 — and dimmer2 is always 0, because the encode
path packs v little-endian at bytes 2–3 while the status decode reads
big-endian from bytes 3–4. -/
theorem claim1_roundtrip_amended (op p v : Nat)
    (hop : op < 256) (hp : p < 256) (hv : v < 65536) :
    byteAt (send_frame op p v) 0 = op
    ∧ (send_frame op p v).length = 8
    ∧ parse_response (send_frame CMD_GET_STATUS p v) =
        some (.status
          { relay1 := p ≠ 0
            relay2 := v % 256 ≠ 0
            dimmer1_value := 256 * (v / 256)
            dimmer2_value := 0
            dimmer1_enabled := false
            dimmer2_enabled := false })
    ∧ (256 * (v / 256) = v ↔ v % 256 = 0)
    ∧ parse_response (send_frame CMD_GET_VERSION p v) =
        some (.version
          ("v" ++ toString p ++ "." ++ toString (v % 256)
            ++ "." ++ toString (v / 256))) := by
  refine ⟨?_, ?_, ?_, ?_, ?_⟩
  · simp [send_frame, byteAt, Nat.mod_eq_of_lt hop]
  · simp [send_frame]
  · simp [parse_response, parse_status_response, send_frame, byteAt,
      CMD_GET_STATUS, CMD_GET_VERSION, Nat.mod_eq_of_lt hv,
      Nat.mod_eq_of_lt hp, Nat.shiftLeft_eq, Nat.mul_comm]
  · omega
  · simp [parse_response, parse_version_response, send_frame, byteAt,
      CMD_GET_STATUS, CMD_GET_VERSION, Nat.mod_eq_of_lt hv,
      Nat.mod_eq_of_lt hp]

/-- C1 amended witness: instantiated at op = GetVersion, p = 7, v = 258;
the status-shaped part decodes 258 to dimmer1 = 256. -/
theorem claim1_roundtrip_amended_witness :
    byteAt (send_frame CMD_GET_VERSION 7 258) 0 = CMD_GET_VERSION
    ∧ parse_response (send_frame CMD_GET_STATUS 7 258) =
        some (.status
          { relay1 := true
            relay2 := true
            dimmer1_value := 256
            dimmer2_value := 0
            dimmer1_enabled := false
            dimmer2_enabled := false }) := by
  have h := claim1_roundtrip_amended CMD_GET_VERSION 7 258
    (by decide) (by decide) (by decide)
  exact ⟨h.1, by simpa using h.2.2.1⟩

/-- C2 counterexample: at percent = 1 the code computes
int((1/100)·4095) = int(40.95) = 40, while round(40.95) = 41, so the
conversion is truncation, not rounding. -/
theorem claim2_counterexample :
    dac_value 1 = 40
    ∧ round ((1 : ℚ) / 100 * 4095) = 41
    ∧ (40 : ℤ) ≠ 41 := by
  refine ⟨?_, ?_, by decide⟩
  · unfold dac_value
    norm_num
  · rw [round_eq]
    norm_num

/-- C2 amended: set_dimmer converts percent to the 12-bit value
int(percent/100·4095) — truncation (floor on the validated range), not
round; the conversion is monotonic, maps 0 to 0 and 100 to 4095, and the
computed DAC value is exactly what is written in the frame's value field
and stored in the local dimmer value. -/
theorem claim2_dimmer_conversion_amended (c : Controller) (conn : SerialConn)
    (now : ℚ) (p : ℚ) (hconn : c.serial_conn = some conn)
    (hopen : conn.is_open = true) (h0 : 0 ≤ p) (h1 : p ≤ 100) :
    (∀ q : ℚ, p ≤ q → dac_value p ≤ dac_value q)
    ∧ dac_value 0 = 0
    ∧ dac_value 100 = 4095
    ∧ (set_dimmer c now true 1 p).2 = .ok ()
    ∧ (set_dimmer c now true 1 p).1.device.dimmer1_value = (dac_value p).toNat
    ∧ (set_dimmer c now true 1 p).1.serial_conn =
        some { conn with
               in_buffer := []
               out_log := conn.out_log
                 ++ [send_frame CMD_SET_DIMMER1 0 (dac_value p).toNat] } := by
  refine ⟨?_, ?_, ?_, ?_, ?_, ?_⟩
  · intro q hpq
    exact Int.floor_le_floor (by nlinarith)
  · unfold dac_value
    norm_num
  · unfold dac_value
    norm_num
  · simp [set_dimmer, send_command, send_usb_command, hconn, hopen, h0, h1]
  · simp [set_dimmer, send_command, send_usb_command, hconn, hopen, h0, h1]
  · simp [set_dimmer, send_command, send_usb_command, hconn, hopen, h0, h1]

/-- C2 amended witness: at percent = 50 on a concrete connected
controller, the DAC value 2047 = int(50/100·4095) is sent and stored. -/
theorem claim2_dimmer_conversion_amended_witness :
    (set_dimmer testController 0 true 1 50).2 = .ok ()
    ∧ (set_dimmer testController 0 true 1 50).1.device.dimmer1_value = 2047 := by
  have h := claim2_dimmer_conversion_amended testController
    { is_open := true, in_buffer := [1, 2, 3], out_log := [] } 0 50
    rfl rfl (by norm_num) (by norm_num)
  refine ⟨h.2.2.2.1, ?_⟩
  rw [h.2.2.2.2.1]
  unfold dac_value
  norm_num
  decide

/-- C3 counterexample: a successful command write also refreshes
last_communication — on a concrete controller whose timestamp is 0,
sending a command at time 7 moves the timestamp to 7 although no read
of any kind occurred, so the timestamp is not refreshed EXCLUSIVELY by
successful 8-byte reads. -/
theorem claim3_counterexample :
    testController.last_communication = 0
    ∧ (send_usb_command testController 7 true CMD_GET_STATUS 0 0).1.last_communication = 7
    ∧ (7 : ℚ) ≠ 0 := by
  refine ⟨rfl, rfl, by norm_num⟩

/-- C3 amended: (1) whenever 5.0 seconds or more have elapsed since
last_communication, is_connected returns false; (2) is_connected is true
immediately after any successful 8-byte read, which refreshes
last_communication to the read time; (3) a read of fewer than 8 bytes
does not refresh last_communication; (4) but successful 8-byte reads are
not the only refresh events: a successful command write in
send_usb_command also sets last_communication to the current time. -/
theorem claim3_liveness_amended :
    (∀ (c : Controller) (now : ℚ),
        communication_timeout ≤ now - c.last_communication →
        is_connected c now = false)
    ∧ (∀ (c : Controller) (now : ℚ) (conn : SerialConn),
        c.serial_conn = some conn → conn.is_open = true →
        8 ≤ conn.in_buffer.length →
        (read_usb_response c now).1.last_communication = now
        ∧ is_connected (read_usb_response c now).1 now = true)
    ∧ (∀ (c : Controller) (now : ℚ) (conn : SerialConn),
        c.serial_conn = some conn → conn.in_buffer.length < 8 →
        (read_usb_response c now).1.last_communication = c.last_communication)
    ∧ (∀ (c : Controller) (now : ℚ) (conn : SerialConn) (cmd param value : Nat),
        c.serial_conn = some conn → conn.is_open = true →
        (send_usb_command c now true cmd param value).1.last_communication = now) := by
  refine ⟨?_, ?_, ?_, ?_⟩
  · intro c now h
    cases hc : c.serial_conn with
    | none => simp [is_connected, hc]
    | some conn =>
        cases hopen : conn.is_open with
        | false => simp [is_connected, hc, hopen]
        | true =>
            have hnl : ¬ (now - c.last_communication < communication_timeout) :=
              not_lt.mpr h
            simp [is_connected, hc, hopen, hnl]
  · intro c now conn hconn hopen hbuf
    have hne : ¬ conn.in_buffer.length = 0 := by omega
    constructor
    · simp [read_usb_response, hconn, hopen, hne, hbuf]
    · simp [read_usb_response, hconn, hopen, hne, hbuf, is_connected,
        communication_timeout]
  · intro c now conn hconn hshort
    cases hopen : conn.is_open with
    | false => simp [read_usb_response, hconn, hopen]
    | true =>
        by_cases hne : conn.in_buffer.length = 0
        · simp [read_usb_response, hconn, hopen, hne]
        · have hlt : ¬ (8 ≤ conn.in_buffer.length) := by omega
          simp [read_usb_response, hconn, hopen, hne, hlt]
  · intro c now conn cmd param value hconn hopen
    simp [send_usb_command, hconn, hopen]

/-- C3 amended witness: all four parts instantiated on concrete
controllers: a stale controller at time 6 reports disconnected; an
8-byte read at time 3 refreshes the timestamp and reports connected; a
3-byte read leaves the timestamp at 0; a successful send at time 7 sets
the timestamp to 7. -/
theorem claim3_liveness_amended_witness :
    is_connected testController 6 = false
    ∧ (read_usb_response
        { serial_conn := some
            { is_open := true, in_buffer := [5, 0, 0, 0, 0, 0, 0, 0], out_log := [] }
          last_communication := 0
          device := {} } 3).1.last_communication = 3
    ∧ (read_usb_response testController 3).1.last_communication = 0
    ∧ (send_usb_command testController 7 true 5 0 0).1.last_communication = 7 := by
  have h := claim3_liveness_amended
  refine ⟨h.1 testController 6
    (by norm_num [testController, communication_timeout]), ?_, ?_, ?_⟩
  · exact (h.2.1
      { serial_conn := some
          { is_open := true, in_buffer := [5, 0, 0, 0, 0, 0, 0, 0], out_log := [] }
        last_communication := 0
        device := {} } 3
      { is_open := true, in_buffer := [5, 0, 0, 0, 0, 0, 0, 0], out_log := [] }
      rfl rfl (by decide)).1
  · have := h.2.2.1 testController 3
      { is_open := true, in_buffer := [1, 2, 3], out_log := [] } rfl (by decide)
    simpa [testController] using this
  · exact h.2.2.2 testController 7
      { is_open := true, in_buffer := [1, 2, 3], out_log := [] } 5 0 0 rfl rfl

/-- C7: set_dimmer fails with the invalid-argument error exactly when the
percentage lies outside [0,100]; on that failure the controller state is
completely unchanged — in particular no frame is written (the transport
log is part of the unchanged state) and the local device state keeps its
old values. -/
theorem claim7_invalid_percentage (c : Controller) (now : ℚ) (writeOk : Bool)
    (n : Nat) (p : ℚ) :
    ((set_dimmer c now writeOk n p).2 = .error .invalidArgument
      ↔ ¬ (0 ≤ p ∧ p ≤ 100))
    ∧ (¬ (0 ≤ p ∧ p ≤ 100) → (set_dimmer c now writeOk n p).1 = c) := by
  by_cases hp : 0 ≤ p ∧ p ≤ 100
  · refine ⟨⟨?_, fun hn => absurd hp hn⟩, fun hn => absurd hp hn⟩
    intro habs
    cases hsc : c.serial_conn with
    | none => simp [set_dimmer, send_command, hp, hsc] at habs
    | some conn =>
        cases hopen : conn.is_open with
        | false =>
            simp [set_dimmer, send_command, send_usb_command, hp, hsc, hopen] at habs
        | true =>
            cases writeOk with
            | false =>
                simp [set_dimmer, send_command, send_usb_command, hp, hsc, hopen] at habs
            | true =>
                by_cases hn : n = 1 <;>
                  simp [set_dimmer, send_command, send_usb_command, hp, hsc,
                    hopen, hn] at habs
  · refine ⟨⟨fun _ => hp, fun _ => ?_⟩, fun _ => ?_⟩ <;> simp [set_dimmer, hp]

/-- C7 witness: percentage 200 on a concrete connected controller raises
the invalid-argument error and leaves the state untouched. -/
theorem claim7_invalid_percentage_witness :
    (set_dimmer testController 0 true 1 200).2 = .error .invalidArgument
    ∧ (set_dimmer testController 0 true 1 200).1 = testController := by
  have h := claim7_invalid_percentage testController 0 true 1 200
  have hout : ¬ ((0 : ℚ) ≤ 200 ∧ (200 : ℚ) ≤ 100) := by norm_num
  exact ⟨h.1.mpr hout, h.2 hout⟩

/-- Range invariant of the claim: both stored dimmer values fit in 12
bits. -/
def DimmerInv (d : DeviceState) : Prop :=
  d.dimmer1_value ≤ 4095 ∧ d.dimmer2_value ≤ 4095

/-- Case split on how a read step changes the device state: it is either
untouched or overwritten by the decoded response that the step
returns. -/
theorem read_device_cases (c : Controller) (now : ℚ) :
    (read_usb_response c now).1.device = c.device
    ∨ ∃ resp, (read_usb_response c now).2 = some resp
        ∧ (read_usb_response c now).1.device = apply_response c.device resp := by
  cases hsc : c.serial_conn with
  | none => left; simp [read_usb_response, hsc]
  | some conn =>
      cases hopen : conn.is_open with
      | false => left; simp [read_usb_response, hsc, hopen]
      | true =>
          by_cases hz : conn.in_buffer.length = 0
          · left; simp [read_usb_response, hsc, hopen, hz]
          · by_cases h8 : 8 ≤ conn.in_buffer.length
            · cases hr : parse_response (conn.in_buffer.take 8) with
              | none => left; simp [read_usb_response, hsc, hopen, hz, h8, hr]
              | some resp =>
                  right
                  exact ⟨resp, by simp [read_usb_response, hsc, hopen, hz, h8, hr],
                    by simp [read_usb_response, hsc, hopen, hz, h8, hr]⟩
            · left; simp [read_usb_response, hsc, hopen, hz, h8]

/-- C8 counterexample: the status decode does not keep the stored dimmer
values in the 12-bit range: reading the status frame
0x05,0,0,0xFF,0xFF,0,0,0 stores dimmer1_value = 65535 > 4095 into the
device state, starting from the all-zero initial state. -/
theorem claim8_counterexample :
    (read_usb_response
      { serial_conn := some
          { is_open := true, in_buffer := [5, 0, 0, 255, 255, 0, 0, 0], out_log := [] }
        last_communication := 0
        device := {} } 0).1.device.dimmer1_value = 65535
    ∧ ¬ (65535 ≤ 4095) := by
  exact ⟨rfl, by decide⟩

/-- C8 amended: set_dimmer always preserves the 12-bit range of the
stored dimmer values (the DAC value it computes is at most 4095, and
out-of-range or failed calls leave the state unchanged); the poller's
status decode, however, stores the raw 16-bit fields unclamped, so it
preserves the range only when the decoded status fields themselves are
at most 4095 — which the code does not enforce for incoming frames. -/
theorem claim8_dimmer_range_amended :
    (∀ (c : Controller) (now : ℚ) (writeOk : Bool) (n : Nat) (p : ℚ),
        DimmerInv c.device → DimmerInv (set_dimmer c now writeOk n p).1.device)
    ∧ (∀ (c : Controller) (now : ℚ),
        DimmerInv c.device →
        (∀ s, (read_usb_response c now).2 = some (.status s) →
            s.dimmer1_value ≤ 4095 ∧ s.dimmer2_value ≤ 4095) →
        DimmerInv (read_usb_response c now).1.device) := by
  constructor
  · intro c now writeOk n p hinv
    by_cases hp : 0 ≤ p ∧ p ≤ 100
    · have hdv : (dac_value p).toNat ≤ 4095 :=
        Int.toNat_le.mpr (dac_value_le p hp.2)
      cases hsc : c.serial_conn with
      | none => simpa [set_dimmer, send_command, hp, hsc] using hinv
      | some conn =>
          cases hopen : conn.is_open with
          | false =>
              simpa [set_dimmer, send_command, send_usb_command, hp, hsc, hopen]
                using hinv
          | true =>
              cases writeOk with
              | false =>
                  simpa [set_dimmer, send_command, send_usb_command, hp, hsc, hopen]
                    using hinv
              | true =>
                  by_cases hn : n = 1 <;>
                    simp [set_dimmer, send_command, send_usb_command, hp, hsc,
                      hopen, hn, DimmerInv] <;>
                    first
                      | exact ⟨hdv, hinv.2⟩
                      | exact ⟨hinv.1, hdv⟩
                      | exact ⟨dac_value_le p hp.2, hinv.2⟩
                      | exact ⟨hinv.1, dac_value_le p hp.2⟩
    · simpa [set_dimmer, hp] using hinv
  · intro c now hinv hresp
    rcases read_device_cases c now with hsame | ⟨resp, hr, hdev⟩
    · rw [DimmerInv, hsame]
      exact hinv
    · cases resp with
      | status s =>
          have hs := hresp s hr
          rw [DimmerInv, hdev]
          simpa [apply_response] using hs
      | version v =>
          rw [DimmerInv, hdev]
          simpa [apply_response] using hinv

/-- C8 amended witness: a set_dimmer call at percent 100 and a status
read carrying in-range fields both keep the invariant on concrete
states. -/
theorem claim8_dimmer_range_amended_witness :
    DimmerInv testController.device
    ∧ DimmerInv (set_dimmer testController 0 true 1 100).1.device
    ∧ DimmerInv (read_usb_response
        { serial_conn := some
            { is_open := true, in_buffer := [5, 0, 0, 1, 0, 0, 0, 0], out_log := [] }
          last_communication := 0
          device := {} } 0).1.device := by
  have h := claim8_dimmer_range_amended
  have hinv0 : DimmerInv testController.device := by
    constructor <;> norm_num [testController, DimmerInv]
  refine ⟨hinv0, h.1 testController 0 true 1 100 hinv0, ?_⟩
  refine h.2 _ 0 (by constructor <;> norm_num [DimmerInv]) ?_
  intro s hs
  have : s = { relay1 := false, relay2 := false, dimmer1_value := 256,
               dimmer2_value := 0, dimmer1_enabled := false,
               dimmer2_enabled := false } := by
    have heval : (read_usb_response
        { serial_conn := some
            { is_open := true, in_buffer := [5, 0, 0, 1, 0, 0, 0, 0], out_log := [] }
          last_communication := 0
          device := {} } 0).2 = some (.status
          { relay1 := false, relay2 := false, dimmer1_value := 256,
            dimmer2_value := 0, dimmer1_enabled := false,
            dimmer2_enabled := false }) := rfl
    rw [heval] at hs
    simp only [Option.some.injEq, Response.status.injEq] at hs
    exact hs.symm
  rw [this]
  exact ⟨by norm_num, by norm_num⟩

/-- C9: on a connected controller whose write fails, set_relay and
set_dimmer leave the whole local device state unchanged (their
optimistic update runs only after a successful send), while
enable_dimmer has already set the dimmer-enabled flag before the write
was attempted, so the flag changes even though the write error still
propagates to the caller. -/
theorem claim9_optimistic_update_order (c : Controller) (now : ℚ)
    (conn : SerialConn) (hconn : c.serial_conn = some conn)
    (hopen : conn.is_open = true) :
    (∀ (rn : Nat) (st : Bool),
        (set_relay c now false rn st).1.device = c.device
        ∧ (set_relay c now false rn st).2 = .error .writeFailed)
    ∧ (∀ (n : Nat) (p : ℚ), 0 ≤ p → p ≤ 100 →
        (set_dimmer c now false n p).1.device = c.device
        ∧ (set_dimmer c now false n p).2 = .error .writeFailed)
    ∧ (∀ en : Bool,
        (enable_dimmer c now false 1 en).1.device.dimmer1_enabled = en
        ∧ (enable_dimmer c now false 1 en).2 = .error .writeFailed)
    ∧ (∀ en : Bool,
        (enable_dimmer c now false 2 en).1.device.dimmer2_enabled = en
        ∧ (enable_dimmer c now false 2 en).2 = .error .writeFailed) := by
  refine ⟨?_, ?_, ?_, ?_⟩
  · intro rn st
    by_cases hrn : rn = 1 <;>
      simp [set_relay, send_command, send_usb_command, hconn, hopen, hrn]
  · intro n p h0 h1
    by_cases hn : n = 1 <;>
      simp [set_dimmer, send_command, send_usb_command, hconn, hopen, hn, h0, h1]
  · intro en
    simp [enable_dimmer, send_command, send_usb_command, hconn, hopen]
  · intro en
    simp [enable_dimmer, send_command, send_usb_command, hconn, hopen]

/-- C9 witness: on a concrete connected controller with a failing write,
set_relay 1 true leaves the relay flag false, while
enable_dimmer 1 true flips the enabled flag to true and still reports
the write error. -/
theorem claim9_optimistic_update_order_witness :
    (set_relay testController 0 false 1 true).1.device.relay1_state = false
    ∧ (enable_dimmer testController 0 false 1 true).1.device.dimmer1_enabled = true
    ∧ (enable_dimmer testController 0 false 1 true).2 = .error .writeFailed := by
  have h := claim9_optimistic_update_order testController 0
    { is_open := true, in_buffer := [1, 2, 3], out_log := [] } rfl rfl
  refine ⟨?_, (h.2.2.1 true).1, (h.2.2.1 true).2⟩
  rw [(h.1 1 true).1]
  rfl

/-- C10: whenever send_usb_command proceeds (a handle exists and reports
open), the transport's entire input buffer is discarded before the write
— for any write outcome the post-state buffer is empty, so inbound
bytes that were queued but not yet read are dropped and can never reach
the decoder; the only transport effect besides the drop is appending the
8-byte command frame to the output on a successful write. -/
theorem claim10_input_buffer_discarded (c : Controller) (now : ℚ)
    (writeOk : Bool) (cmd param value : Nat) (conn : SerialConn)
    (hconn : c.serial_conn = some conn) (hopen : conn.is_open = true) :
    ∃ conn' : SerialConn,
      (send_usb_command c now writeOk cmd param value).1.serial_conn = some conn'
      ∧ conn'.in_buffer = []
      ∧ conn'.is_open = conn.is_open
      ∧ (conn'.out_log = conn.out_log
          ∨ conn'.out_log = conn.out_log ++ [send_frame cmd param value]) := by
  cases writeOk with
  | false =>
      refine ⟨{ conn with in_buffer := [] }, ?_, rfl, rfl, Or.inl rfl⟩
      simp [send_usb_command, hconn, hopen]
  | true =>
      refine ⟨{ conn with
                in_buffer := []
                out_log := conn.out_log ++ [send_frame cmd param value] },
        ?_, rfl, rfl, Or.inr rfl⟩
      simp [send_usb_command, hconn, hopen]

/-- C10 witness: the concrete controller with queued bytes 1,2,3 has an
empty input buffer after sending a GetStatus command. -/
theorem claim10_input_buffer_discarded_witness :
    ∃ conn' : SerialConn,
      (send_usb_command testController 0 true CMD_GET_STATUS 0 0).1.serial_conn
        = some conn' ∧ conn'.in_buffer = [] := by
  obtain ⟨conn', h1, h2, -, -⟩ := claim10_input_buffer_discarded testController 0
    true CMD_GET_STATUS 0 0
    { is_open := true, in_buffer := [1, 2, 3], out_log := [] } rfl rfl
  exact ⟨conn', h1, h2⟩

end PowerPack
